import Mathlib

/-!
Verification development for the system-health-monitor service
(`src/main.py`, `src/database.py`).

The monitoring core is shallowly embedded: Python floats for thresholds and
percentages are modelled as rationals (`ℚ`), wall-clock timestamps as integers,
and the effectful operations (database inserts, HTTP posts, sleeps, log lines)
as explicit event traces.  Fallible collaborator behaviour (whether a database
write succeeds, whether a webhook delivery attempt succeeds) is supplied as
explicit parameters, so each source function becomes a total Lean function from
its inputs and its collaborators' behaviour to its result and its trace.
-/

namespace HealthMonitor

/-- A sampled set of host metrics (`get_system_metrics` result restricted to the
fields the monitoring loop reads: the three percent values), plus the sample
timestamp.  Mirrors the `metrics` dict of `src/main.py`. -/
structure MetricSample where
  timestamp : Int
  cpu_percent : ℚ
  memory_percent : ℚ
  disk_percent : ℚ
deriving Repr, DecidableEq

/-- The three process-wide thresholds `CPU_THRESHOLD`, `MEMORY_THRESHOLD`,
`DISK_THRESHOLD` of `src/main.py` lines 92-94, loaded once at startup. -/
structure ThresholdConfig where
  cpu_threshold : ℚ
  memory_threshold : ℚ
  disk_threshold : ℚ
deriving Repr, DecidableEq

/-- The default thresholds 80 / 85 / 90 used when the environment provides
none (`os.getenv("CPU_THRESHOLD", "80")` etc.). -/
def defaultThresholds : ThresholdConfig := ⟨80, 85, 90⟩

/-- The configured threshold for a given metric-type string. -/
def thresholdFor (c : ThresholdConfig) (metric_type : String) : ℚ :=
  if metric_type = "CPU" then c.cpu_threshold
  else if metric_type = "Memory" then c.memory_threshold
  else c.disk_threshold

/-- A breach tuple `(metric_type, threshold, current_value)`. -/
abbrev Breach := String × ℚ × ℚ

/-- The threshold-evaluation policy of the monitoring loop: the three
sequential strict comparisons of `check_system_health` (`src/main.py`
lines 280-289), in source order CPU, then Memory, then Disk, each producing
one breach tuple exactly when the sampled percent strictly exceeds the
configured threshold. -/
def evaluateThresholds (m : MetricSample) (c : ThresholdConfig) : List Breach :=
  (if c.cpu_threshold < m.cpu_percent
    then [("CPU", c.cpu_threshold, m.cpu_percent)] else [])
  ++ (if c.memory_threshold < m.memory_percent
    then [("Memory", c.memory_threshold, m.memory_percent)] else [])
  ++ (if c.disk_threshold < m.disk_percent
    then [("Disk", c.disk_threshold, m.disk_percent)] else [])

/-- A persisted alert row of the `alerts` table (`src/database.py` lines
33-42): integer primary key, timestamp, metric-type string, threshold,
current value and status string. -/
structure Alert where
  id : Nat
  timestamp : Int
  metric_type : String
  threshold : ℚ
  current_value : ℚ
  status : String
deriving Repr, DecidableEq

/-- A persisted row of the `metrics_history` table (`src/database.py` lines
44-52). -/
structure HistoryRow where
  timestamp : Int
  cpu_percent : ℚ
  memory_percent : ℚ
  disk_percent : ℚ
deriving Repr, DecidableEq

/-- The payload dict passed to `send_slack_alert` (the fields the message and
its colour actually read). -/
structure AlertData where
  id : Nat
  metric_type : String
  threshold : ℚ
  current_value : ℚ
  status : String
deriving Repr, DecidableEq

/-- The notifier configuration: `SLACK_WEBHOOK_URL` (`src/main.py` line 95),
`none` when the environment variable is unset. -/
structure NotifierConfig where
  slack_webhook_url : Option String
deriving Repr, DecidableEq

/-- Observable effects of the embedded functions, recorded as a trace:
HTTP posts, sleeps, database writes and log lines. -/
inductive Event where
  | notifyCall (d : AlertData)
  | logNoWebhook
  | httpPost (d : AlertData) (attempt : Nat)
  | sleep (units : Nat)
  | logNotifySuccess (metric_type : String)
  | logNotifyError
  | createAlertCall (metric_type : String) (threshold current_value : ℚ)
  | insertAlert (a : Alert)
  | logCreateAlertError
  | logAlertCreated (metric_type : String)
  | appendHistory (r : HistoryRow)
  | logStoreHistoryError
  | logHealthCheckError
deriving Repr, DecidableEq

/-- Is the event an HTTP POST delivery attempt? -/
def Event.isHttpPost : Event → Bool
  | .httpPost _ _ => true
  | _ => false

/-- Is the event an invocation of the notifier with a payload whose status is
`resolved`? -/
def Event.isResolvedNotify : Event → Bool
  | .notifyCall d => d.status == "resolved"
  | _ => false

/-- The retry loop of `send_slack_alert` (`src/main.py` lines 180-193),
recursing over the remaining attempt indices of `for attempt in range(3)`.
`endpoint k = true` means the POST of attempt `k` gets a 2xx response;
`false` covers non-2xx, timeout and transport errors alike, all of which the
source handles through the same `except` clause.  The boolean result is
`false` exactly when the loop re-raises the final attempt's exception
(`if attempt == 2: raise e`), which the caller's outer handler then logs. -/
def slackRetryLoop (d : AlertData) (endpoint : Nat → Bool) :
    List Nat → List Event × Bool
  | [] => ([], true)
  | k :: rest =>
    if endpoint k then
      ([Event.httpPost d k, Event.logNotifySuccess d.metric_type], true)
    else if k == 2 then
      ([Event.httpPost d k], false)
    else
      let r := slackRetryLoop d endpoint rest
      (Event.httpPost d k :: Event.sleep 1 :: r.1, r.2)

/-- `send_slack_alert` (`src/main.py` lines 134-196).  With no webhook URL
configured it logs a warning and returns; otherwise it runs the retry loop
over attempts 0, 1, 2 and, should the loop re-raise, the outer `except`
logs the error.  The function is total: it always returns a trace, never an
exception. -/
def send_slack_alert (cfg : NotifierConfig) (endpoint : Nat → Bool)
    (d : AlertData) : List Event :=
  Event.notifyCall d ::
    match cfg.slack_webhook_url with
    | none => [Event.logNoWebhook]
    | some _ =>
      let r := slackRetryLoop d endpoint [0, 1, 2]
      if r.2 then r.1 else r.1 ++ [Event.logNotifyError]

/-- The alert store: the `alerts` table plus the next auto-increment id. -/
structure AlertStore where
  alerts : List Alert
  next_id : Nat
deriving Repr, DecidableEq

/-- The `alerts_table.insert()` of `create_alert`: a new row with
`status="active"` and the next auto-increment id. -/
def AlertStore.insertRow (s : AlertStore) (ts : Int) (metric_type : String)
    (threshold current_value : ℚ) : AlertStore × Alert :=
  let a : Alert := ⟨s.next_id, ts, metric_type, threshold, current_value, "active"⟩
  (⟨s.alerts ++ [a], s.next_id + 1⟩, a)

/-- `create_alert` (`src/main.py` lines 224-253).  `insertOk` is whether the
database insert succeeds; when it raises, the function's blanket `except`
logs the error and nothing else happens (in particular no notification is
attempted).  On success the alert row is persisted first, then
`send_slack_alert` runs, then the ALERT log line prints.  All failure modes
are swallowed: the function always returns. -/
def create_alert (cfg : NotifierConfig) (endpoint : Nat → Bool) (insertOk : Bool)
    (now : Int) (s : AlertStore) (metric_type : String)
    (threshold current_value : ℚ) : AlertStore × List Event :=
  if insertOk then
    let (s2, a) := s.insertRow now metric_type threshold current_value
    let d : AlertData := ⟨a.id, metric_type, threshold, current_value, "active"⟩
    (s2, Event.createAlertCall metric_type threshold current_value
          :: Event.insertAlert a
          :: (send_slack_alert cfg endpoint d ++ [Event.logAlertCreated metric_type]))
  else
    (s, [Event.createAlertCall metric_type threshold current_value,
         Event.logCreateAlertError])

/-- `store_historical_metrics` (`src/main.py` lines 255-268): append one row
with the sampled percents, or log and swallow the store error. -/
def store_historical_metrics (appendOk : Bool) (now : Int)
    (h : List HistoryRow) (m : MetricSample) : List HistoryRow × List Event :=
  if appendOk then
    let r : HistoryRow := ⟨now, m.cpu_percent, m.memory_percent, m.disk_percent⟩
    (h ++ [r], [Event.appendHistory r])
  else
    (h, [Event.logStoreHistoryError])

/-- One cycle's environment: the outcome of `get_system_metrics` (which may
raise), the notifier configuration and webhook behaviour, whether each
database write succeeds (`insert_ok` keyed by metric type, since one cycle
inserts at most one alert per metric), and the cycle's wall-clock instant. -/
structure CycleEnv where
  sample : Except String MetricSample
  cfg : NotifierConfig
  thresholds : ThresholdConfig
  endpoint : Nat → Bool
  insert_ok : String → Bool
  append_ok : Bool
  now : Int

/-- The mutable shared state: the alert store and the metrics-history store. -/
structure SystemState where
  alert_store : AlertStore
  history : List HistoryRow
deriving Repr, DecidableEq

/-- The body of one iteration of `check_system_health` (`src/main.py` lines
276-292), inside the per-cycle `try`: sample, then the three threshold
checks in order CPU, Memory, Disk, then the unconditional history append.
An `Except.error` is a raised exception escaping the body — here only
`get_system_metrics` can raise, every later operation swallows its own
failures. -/
def cycleBody (env : CycleEnv) (s : SystemState) :
    Except String (SystemState × List Event) :=
  match env.sample with
  | .error e => .error e
  | .ok m =>
    let r1 :=
      if env.thresholds.cpu_threshold < m.cpu_percent then
        create_alert env.cfg env.endpoint (env.insert_ok "CPU") env.now
          s.alert_store "CPU" env.thresholds.cpu_threshold m.cpu_percent
      else (s.alert_store, [])
    let r2 :=
      if env.thresholds.memory_threshold < m.memory_percent then
        create_alert env.cfg env.endpoint (env.insert_ok "Memory") env.now
          r1.1 "Memory" env.thresholds.memory_threshold m.memory_percent
      else (r1.1, [])
    let r3 :=
      if env.thresholds.disk_threshold < m.disk_percent then
        create_alert env.cfg env.endpoint (env.insert_ok "Disk") env.now
          r2.1 "Disk" env.thresholds.disk_threshold m.disk_percent
      else (r2.1, [])
    let r4 := store_historical_metrics env.append_ok env.now s.history m
    .ok (⟨r3.1, r4.1⟩, r1.2 ++ r2.2 ++ r3.2 ++ r4.2)

/-- One full iteration of the `while True` loop of `check_system_health`
(`src/main.py` lines 275-297): the body under its per-cycle `try/except`
(any escaping exception is logged, the state is left as it was), always
followed by `asyncio.sleep(60)`. -/
def runCycle (env : CycleEnv) (s : SystemState) : SystemState × List Event :=
  match cycleBody env s with
  | .ok (s2, t) => (s2, t ++ [Event.sleep 60])
  | .error _ => (s, [Event.logHealthCheckError, Event.sleep 60])

/-- The observable outcome of an HTTP handler: a success response or a
raised `HTTPException` with a status code. -/
inductive HandlerResult where
  | ok (alert_id : Nat)
  | httpError (code : Nat)
deriving Repr, DecidableEq

/-- The UPDATE of `resolve_alert`: `alerts_table.update().where(id ==
alert_id).values(status="resolved")` — every row whose id matches (the
status is not consulted) is set to resolved. -/
def updateAlertsResolved (alerts : List Alert) (alert_id : Nat) : List Alert :=
  alerts.map (fun a => if a.id == alert_id then { a with status := "resolved" } else a)

/-- The `/api/alerts/{alert_id}/resolve` handler (`src/main.py` lines
427-452).  The UPDATE row count is the number of rows whose id matches.  When
it is non-zero the handler re-fetches the row, forces `status` to
`"resolved"` in the payload, invokes `send_slack_alert`, and returns the
success message (modelled as `Except.ok alert_id`).  When it is zero the
handler raises `HTTPException(404)`, which its own blanket `except Exception`
catches and re-raises as `HTTPException(500)` — modelled as
`HandlerResult.httpError 500`.  Database failures are outside this model: the
store operations here always succeed. -/
def resolve_alert (cfg : NotifierConfig) (endpoint : Nat → Bool)
    (s : AlertStore) (alert_id : Nat) :
    AlertStore × List Event × HandlerResult :=
  let matched := (s.alerts.filter (fun a => a.id == alert_id)).length
  let s2 : AlertStore := ⟨updateAlertsResolved s.alerts alert_id, s.next_id⟩
  if matched ≠ 0 then
    match s2.alerts.find? (fun a => a.id == alert_id) with
    | some a =>
      let d : AlertData := ⟨a.id, a.metric_type, a.threshold, a.current_value, "resolved"⟩
      (s2, send_slack_alert cfg endpoint d, HandlerResult.ok alert_id)
    | none => (s2, [], HandlerResult.ok alert_id)
  else
    (s2, [], HandlerResult.httpError 500)

/-- Insert a row into a list kept in descending timestamp order. -/
def insertDescByTs (r : HistoryRow) : List HistoryRow → List HistoryRow
  | [] => [r]
  | x :: xs =>
    if x.timestamp ≤ r.timestamp then r :: x :: xs else x :: insertDescByTs r xs

/-- Sort history rows newest-first (`order_by(timestamp.desc())`). -/
def sortDescByTs : List HistoryRow → List HistoryRow
  | [] => []
  | x :: xs => insertDescByTs x (sortDescByTs xs)

/-- Python's `round(x, 2)`, modelled over the rationals as
`⌊100q + 1/2⌋ / 100` computed on numerator and denominator.  (The source
rounds IEEE floats, which break exact .005 ties differently; no claim
exercises a tie.) -/
def round2 (q : ℚ) : ℚ :=
  mkRat ((200 * q.num + (q.den : Int)).fdiv (2 * (q.den : Int))) 100

/-- The per-row formatting of `get_metrics_history`: percents rounded to two
decimal places, timestamp kept. -/
def formatRow (r : HistoryRow) : HistoryRow :=
  ⟨r.timestamp, round2 r.cpu_percent, round2 r.memory_percent, round2 r.disk_percent⟩

/-- The `/api/metrics/history` handler (`src/main.py` lines 321-346):
`cutoff = now - minutes`, SELECT the rows with `timestamp > cutoff`, order
them newest-first, and format each row. -/
def get_metrics_history (store : List HistoryRow) (now minutes : Int) :
    List HistoryRow :=
  let cutoff := now - minutes
  (sortDescByTs (store.filter (fun r => cutoff < r.timestamp))).map formatRow

/-- A store holding a single already-resolved alert, id 1. -/
def resolvedStore : AlertStore := ⟨[⟨1, 0, "CPU", 80, 90, "resolved"⟩], 2⟩

/-- Fresh system state: no alerts (next id 1, as SQLite auto-increment
starts at 1), no history. -/
def emptyState : SystemState := ⟨⟨[], 1⟩, []⟩

/-- The sample of end-to-end scenario A: cpu 90, memory 50, disk 50. -/
def scenarioA_sample : MetricSample := ⟨100, 90, 50, 50⟩

/-- Scenario A environment: default thresholds 80/85/90, webhook configured
and delivering, all store writes succeeding. -/
def scenarioA_env : CycleEnv where
  sample := Except.ok scenarioA_sample
  cfg := ⟨some "hook"⟩
  thresholds := defaultThresholds
  endpoint := fun _ => true
  insert_ok := fun _ => true
  append_ok := true
  now := 100

/-- A cycle with two breaches (cpu 95, memory 90 against 80/85/90) in which
the CPU alert's database insert fails and every webhook attempt fails. -/
def partialFailSample : MetricSample := ⟨200, 95, 90, 50⟩

/-- Environment for the partial-failure cycle: CPU insert raises, Memory and
Disk inserts succeed, the webhook never delivers, history append succeeds. -/
def partialFailEnv : CycleEnv where
  sample := Except.ok partialFailSample
  cfg := ⟨some "hook"⟩
  thresholds := defaultThresholds
  endpoint := fun _ => false
  insert_ok := fun mt => !(mt == "CPU")
  append_ok := true
  now := 200

/-- The payload of the `/api/test-notification` endpoint (`src/main.py`
lines 459-466). -/
def testAlertData : AlertData := ⟨0, "TEST", 80, 85, "active"⟩

/-- Newest-first ordering on history rows. -/
def newestFirst (a b : HistoryRow) : Prop := b.timestamp ≤ a.timestamp

/-- Is the event a database insert of an alert row? -/
def Event.isInsertAlert : Event → Bool
  | .insertAlert _ => true
  | _ => false

/-- Is the event a database append of a history row? -/
def Event.isAppendHistory : Event → Bool
  | .appendHistory _ => true
  | _ => false

/-- The breach tuple of a `create_alert` invocation event, if any: used to
read off, from a cycle's trace, which breaches were handled. -/
def eventBreach : Event → Option Breach
  | .createAlertCall mt th cv => some (mt, th, cv)
  | _ => none

/-- C2: for every MetricSample and ThresholdConfig, threshold evaluation
produces exactly one breach tuple per metric whose percent strictly exceeds
its configured threshold (a metric at or below its threshold never breaches),
and the breach list is, in order, a sublist of CPU-tuple, Memory-tuple,
Disk-tuple — so breaches always appear in the fixed order CPU, Memory,
Disk. -/
theorem threshold_evaluation_correct (m : MetricSample) (c : ThresholdConfig) :
    ((evaluateThresholds m c).countP (fun b => b.1 == "CPU")
        = if c.cpu_threshold < m.cpu_percent then 1 else 0) ∧
    ((evaluateThresholds m c).countP (fun b => b.1 == "Memory")
        = if c.memory_threshold < m.memory_percent then 1 else 0) ∧
    ((evaluateThresholds m c).countP (fun b => b.1 == "Disk")
        = if c.disk_threshold < m.disk_percent then 1 else 0) ∧
    (∀ b ∈ evaluateThresholds m c,
        (b = ("CPU", c.cpu_threshold, m.cpu_percent) ∧ c.cpu_threshold < m.cpu_percent) ∨
        (b = ("Memory", c.memory_threshold, m.memory_percent) ∧
            c.memory_threshold < m.memory_percent) ∨
        (b = ("Disk", c.disk_threshold, m.disk_percent) ∧
            c.disk_threshold < m.disk_percent)) ∧
    List.Sublist (evaluateThresholds m c)
      [("CPU", c.cpu_threshold, m.cpu_percent),
       ("Memory", c.memory_threshold, m.memory_percent),
       ("Disk", c.disk_threshold, m.disk_percent)] := by
  unfold evaluateThresholds
  split_ifs with h1 h2 h3 <;>
    refine ⟨by simp, by simp, by simp, by intro b hb; simp at hb <;> tauto, ?_⟩ <;>
    solve_by_elim [List.Sublist.refl, List.Sublist.cons, List.Sublist.cons₂,
      List.nil_sublist]

/-- Witness for `threshold_evaluation_correct`: the Disk breach of the sample
{cpu 90, memory 50, disk 95} under the default thresholds. -/
theorem threshold_evaluation_correct_witness :
    (("Disk", (90:ℚ), (95:ℚ)) = ("CPU", (80:ℚ), (90:ℚ)) ∧ (80:ℚ) < 90) ∨
    (("Disk", (90:ℚ), (95:ℚ)) = ("Memory", (85:ℚ), (50:ℚ)) ∧ (85:ℚ) < 50) ∨
    (("Disk", (90:ℚ), (95:ℚ)) = ("Disk", (90:ℚ), (95:ℚ)) ∧ (90:ℚ) < 95) :=
  (threshold_evaluation_correct ⟨0, 90, 50, 95⟩ defaultThresholds).2.2.2.1
    ("Disk", 90, 95) (by decide)

/-- C3: a notify call against a configured webhook whose endpoint permanently
fails performs exactly 3 delivery attempts, with a single 1-time-unit sleep
between attempts 1 and 2 and between attempts 2 and 3, no sleep after the
final attempt, and returns normally with the error merely logged. -/
theorem notifier_retry_bound (cfg : NotifierConfig) (url : String)
    (hcfg : cfg.slack_webhook_url = some url)
    (endpoint : Nat → Bool) (hfail : ∀ n, endpoint n = false) (d : AlertData) :
    send_slack_alert cfg endpoint d =
      [Event.notifyCall d, Event.httpPost d 0, Event.sleep 1, Event.httpPost d 1,
       Event.sleep 1, Event.httpPost d 2, Event.logNotifyError] := by
  simp [send_slack_alert, hcfg, slackRetryLoop, hfail]

/-- Witness for `notifier_retry_bound` at a concrete configuration. -/
theorem notifier_retry_bound_witness :
    send_slack_alert ⟨some "hook"⟩ (fun _ => false) testAlertData =
      [Event.notifyCall testAlertData, Event.httpPost testAlertData 0, Event.sleep 1,
       Event.httpPost testAlertData 1, Event.sleep 1, Event.httpPost testAlertData 2,
       Event.logNotifyError] :=
  notifier_retry_bound ⟨some "hook"⟩ "hook" rfl (fun _ => false) (fun _ => rfl)
    testAlertData

/-- C8: with no webhook URL configured, notify performs zero HTTP calls,
logs a warning, and returns without failing. -/
theorem notify_no_webhook_noop (cfg : NotifierConfig)
    (h : cfg.slack_webhook_url = none) (endpoint : Nat → Bool) (d : AlertData) :
    send_slack_alert cfg endpoint d = [Event.notifyCall d, Event.logNoWebhook] ∧
    (send_slack_alert cfg endpoint d).countP Event.isHttpPost = 0 := by
  constructor <;> simp [send_slack_alert, h, Event.isHttpPost, List.countP_cons]

/-- Witness for `notify_no_webhook_noop` at a concrete configuration. -/
theorem notify_no_webhook_noop_witness :
    send_slack_alert ⟨none⟩ (fun _ => true) testAlertData
        = [Event.notifyCall testAlertData, Event.logNoWebhook] ∧
    (send_slack_alert ⟨none⟩ (fun _ => true) testAlertData).countP
        Event.isHttpPost = 0 :=
  notify_no_webhook_noop ⟨none⟩ rfl (fun _ => true) testAlertData

theorem insertDescByTs_perm (r : HistoryRow) (l : List HistoryRow) :
    List.Perm (insertDescByTs r l) (r :: l) := by
  induction l with
  | nil => simp [insertDescByTs]
  | cons x xs ih =>
    simp only [insertDescByTs]
    split
    · exact List.Perm.refl _
    · exact (List.Perm.cons x ih).trans (List.Perm.swap r x xs)

theorem insertDescByTs_sorted (r : HistoryRow) (l : List HistoryRow)
    (hl : l.Sorted newestFirst) : (insertDescByTs r l).Sorted newestFirst := by
  induction l with
  | nil => simp [insertDescByTs, newestFirst]
  | cons x xs ih =>
    rw [List.sorted_cons] at hl
    simp only [insertDescByTs]
    split
    · rename_i h
      rw [List.sorted_cons]
      refine ⟨?_, by rw [List.sorted_cons]; exact hl⟩
      intro y hy
      rcases List.mem_cons.mp hy with rfl | hy
      · exact h
      · exact le_trans (hl.1 y hy) h
    · rename_i h
      rw [List.sorted_cons]
      refine ⟨?_, ih hl.2⟩
      intro y hy
      have := (insertDescByTs_perm r xs).mem_iff.mp hy
      rcases List.mem_cons.mp this with rfl | hy2
      · exact le_of_not_le h
      · exact hl.1 y hy2

theorem sortDescByTs_perm (l : List HistoryRow) :
    List.Perm (sortDescByTs l) l := by
  induction l with
  | nil => simp [sortDescByTs]
  | cons x xs ih =>
    exact (insertDescByTs_perm x (sortDescByTs xs)).trans (List.Perm.cons x ih)

theorem sortDescByTs_sorted (l : List HistoryRow) :
    (sortDescByTs l).Sorted newestFirst := by
  induction l with
  | nil => simp [sortDescByTs]
  | cons x xs ih => exact insertDescByTs_sorted x _ ih

/-- C4: the history query returns exactly the stored rows whose timestamp is
strictly after the cutoff `now - minutes` (as a permutation and as a
membership characterisation, each row formatted), the result is ordered
newest-first, and in the concrete scenario a sample from 90 time units ago is
excluded from a 60-unit window while a sample from 30 units ago is
returned. -/
theorem history_query_window (store : List HistoryRow) (now minutes : Int) :
    List.Perm (get_metrics_history store now minutes)
      ((store.filter (fun s => now - minutes < s.timestamp)).map formatRow) ∧
    (∀ r, r ∈ get_metrics_history store now minutes ↔
       ∃ s, s ∈ store ∧ now - minutes < s.timestamp ∧ r = formatRow s) ∧
    (get_metrics_history store now minutes).Sorted newestFirst ∧
    get_metrics_history [⟨910, 10, 10, 10⟩, ⟨970, 20, 20, 20⟩] 1000 60
      = [⟨970, 20, 20, 20⟩] := by
  refine ⟨List.Perm.map formatRow (sortDescByTs_perm _), ?_, ?_, by decide⟩
  · intro r
    unfold get_metrics_history
    simp only [List.mem_map, (sortDescByTs_perm _).mem_iff, List.mem_filter,
      decide_eq_true_eq]
    constructor
    · rintro ⟨s, ⟨hs, hcut⟩, rfl⟩
      exact ⟨s, hs, hcut, rfl⟩
    · rintro ⟨s, hs, hcut, rfl⟩
      exact ⟨s, ⟨hs, hcut⟩, rfl⟩
  · unfold get_metrics_history
    refine List.Pairwise.map formatRow ?_ (sortDescByTs_sorted _)
    intro a b hab
    exact hab

/-- C5: for every environment — including a failing sampler, failing store
writes and a failing webhook — one monitoring-loop cycle returns normally
(the per-cycle handler absorbs any failure) and its trace ends with the
fixed 60-time-unit sleep leading into the next cycle; no single cycle's
failure terminates the loop. -/
theorem monitoring_cycle_always_sleeps (env : CycleEnv) (s : SystemState) :
    ∃ t, (runCycle env s).2 = t ++ [Event.sleep 60] := by
  cases h : cycleBody env s with
  | error e => exact ⟨[Event.logHealthCheckError], by simp [runCycle, h]⟩
  | ok p => exact ⟨p.2, by simp [runCycle, h]⟩

/-- C6: with the store insert succeeding, `create_alert` appends the alert
row (status active) to the store; the trace performs the insert before the
notifier runs — any trace prefix containing an HTTP delivery attempt already
contains the insert — and the resulting store state is identical under every
webhook behaviour, so a notification failure neither propagates nor changes
the persisted alert. -/
theorem create_alert_persists_before_notify (cfg : NotifierConfig)
    (endpoint : Nat → Bool) (now : Int) (s : AlertStore) (mt : String)
    (th cv : ℚ) :
    (create_alert cfg endpoint true now s mt th cv).1.alerts
        = s.alerts ++ [⟨s.next_id, now, mt, th, cv, "active"⟩] ∧
    (create_alert cfg endpoint true now s mt th cv).2
        = Event.createAlertCall mt th cv
            :: Event.insertAlert ⟨s.next_id, now, mt, th, cv, "active"⟩
            :: (send_slack_alert cfg endpoint ⟨s.next_id, mt, th, cv, "active"⟩
                ++ [Event.logAlertCreated mt]) ∧
    (∀ n, ((create_alert cfg endpoint true now s mt th cv).2.take n).any
          Event.isHttpPost = true →
        Event.insertAlert ⟨s.next_id, now, mt, th, cv, "active"⟩
          ∈ (create_alert cfg endpoint true now s mt th cv).2.take n) ∧
    (∀ ep2 : Nat → Bool,
        (create_alert cfg ep2 true now s mt th cv).1
          = (create_alert cfg endpoint true now s mt th cv).1) := by
  have htrace : (create_alert cfg endpoint true now s mt th cv).2
      = Event.createAlertCall mt th cv
          :: Event.insertAlert ⟨s.next_id, now, mt, th, cv, "active"⟩
          :: (send_slack_alert cfg endpoint ⟨s.next_id, mt, th, cv, "active"⟩
              ++ [Event.logAlertCreated mt]) := by
    simp [create_alert, AlertStore.insertRow]
  refine ⟨by simp [create_alert, AlertStore.insertRow], htrace, ?_, ?_⟩
  · intro n h
    rw [htrace] at h ⊢
    match n with
    | 0 => simp at h
    | 1 => simp [Event.isHttpPost] at h
    | (k + 2) => simp
  · intro ep2
    simp [create_alert, AlertStore.insertRow]

/-- Witness for `create_alert_persists_before_notify`: at a concrete call,
the shortest trace prefix containing an HTTP delivery attempt (length 4)
already contains the database insert of the alert. -/
theorem create_alert_persists_before_notify_witness :
    Event.insertAlert ⟨1, 100, "CPU", 80, 90, "active"⟩
        ∈ ((create_alert ⟨some "hook"⟩ (fun _ => true) true 100 ⟨[], 1⟩
            "CPU" 80 90).2.take 4) :=
  (create_alert_persists_before_notify ⟨some "hook"⟩ (fun _ => true) 100 ⟨[], 1⟩
      "CPU" 80 90).2.2.1 4 (by decide)

/-- C9: scenario A — the sample {cpu 90, memory 50, disk 50} under the
default thresholds 80/85/90: one cycle creates exactly one alert, with
metric_type CPU, threshold 80, current_value 90 and status active, and
appends exactly one history row, with cpu_percent 90. -/
theorem scenario_A_single_cpu_alert :
    (runCycle scenarioA_env emptyState).1.alert_store.alerts
        = [⟨1, 100, "CPU", 80, 90, "active"⟩] ∧
    (runCycle scenarioA_env emptyState).1.history = [⟨100, 90, 50, 50⟩] ∧
    (runCycle scenarioA_env emptyState).2.countP Event.isInsertAlert = 1 ∧
    (runCycle scenarioA_env emptyState).2.countP Event.isAppendHistory = 1 := by
  decide

theorem slackRetryLoop_filterMap_breach (d : AlertData) (ep : Nat → Bool)
    (ks : List Nat) : (slackRetryLoop d ep ks).1.filterMap eventBreach = [] := by
  induction ks with
  | nil => simp [slackRetryLoop]
  | cons k rest ih =>
    simp only [slackRetryLoop]
    split
    · simp [eventBreach]
    · split
      · simp [eventBreach]
      · simp [eventBreach, ih]

theorem send_filterMap_breach (cfg : NotifierConfig) (ep : Nat → Bool)
    (d : AlertData) :
    (send_slack_alert cfg ep d).filterMap eventBreach = [] := by
  unfold send_slack_alert
  cases cfg.slack_webhook_url with
  | none => simp [eventBreach]
  | some u =>
    by_cases hr : (slackRetryLoop d ep [0, 1, 2]).2 = true <;>
      simp [hr, eventBreach, List.filterMap_append, slackRetryLoop_filterMap_breach]

theorem create_alert_filterMap_breach (cfg : NotifierConfig) (ep : Nat → Bool)
    (ok : Bool) (now : Int) (s : AlertStore) (mt : String) (th cv : ℚ) :
    (create_alert cfg ep ok now s mt th cv).2.filterMap eventBreach
      = [(mt, th, cv)] := by
  cases ok <;>
    simp [create_alert, AlertStore.insertRow, eventBreach, List.filterMap_append,
      send_filterMap_breach]

theorem store_historical_filterMap_breach (ok : Bool) (now : Int)
    (h : List HistoryRow) (m : MetricSample) :
    (store_historical_metrics ok now h m).2.filterMap eventBreach = [] := by
  cases ok <;> simp [store_historical_metrics, eventBreach]

/-- C7: in a cycle whose sample succeeds, every breach gets its own
`create_alert` invocation regardless of store or notification failures in
the other breaches — the invocations read off the trace are exactly the
breach tuples, in order — and when the history append itself succeeds the
cycle's sample is appended to the history store regardless of any
alert-creation or notification failure. -/
theorem cycle_breaches_independent_append_unconditional
    (env : CycleEnv) (s : SystemState) (m : MetricSample)
    (hs : env.sample = Except.ok m) :
    (runCycle env s).2.filterMap eventBreach
        = evaluateThresholds m env.thresholds ∧
    (env.append_ok = true →
      (runCycle env s).1.history
        = s.history
            ++ [⟨env.now, m.cpu_percent, m.memory_percent, m.disk_percent⟩]) := by
  constructor
  · simp only [runCycle, cycleBody, hs, evaluateThresholds]
    split_ifs <;>
      simp [List.filterMap_append, create_alert_filterMap_breach,
        store_historical_filterMap_breach, eventBreach]
  · intro hap
    simp only [runCycle, cycleBody, hs]
    simp [store_historical_metrics, hap]

/-- Witness for `cycle_breaches_independent_append_unconditional` on a cycle
with two breaches where the first breach's store insert and every webhook
delivery fail. -/
theorem cycle_breaches_witness :
    (runCycle partialFailEnv emptyState).2.filterMap eventBreach
        = evaluateThresholds partialFailSample partialFailEnv.thresholds ∧
    (runCycle partialFailEnv emptyState).1.history
        = emptyState.history ++ [⟨partialFailEnv.now, 95, 90, 50⟩] :=
  ⟨(cycle_breaches_independent_append_unconditional partialFailEnv emptyState
      partialFailSample rfl).1,
   (cycle_breaches_independent_append_unconditional partialFailEnv emptyState
      partialFailSample rfl).2 rfl⟩

theorem insertAlert_not_mem_retry (a : Alert) (d : AlertData) (ep : Nat → Bool)
    (ks : List Nat) : Event.insertAlert a ∉ (slackRetryLoop d ep ks).1 := by
  induction ks with
  | nil => simp [slackRetryLoop]
  | cons k rest ih =>
    simp only [slackRetryLoop]
    split
    · simp
    · split
      · simp
      · simp [ih]

theorem insertAlert_not_mem_send (a : Alert) (cfg : NotifierConfig)
    (ep : Nat → Bool) (d : AlertData) :
    Event.insertAlert a ∉ send_slack_alert cfg ep d := by
  unfold send_slack_alert
  cases cfg.slack_webhook_url with
  | none => simp
  | some u =>
    by_cases hr : (slackRetryLoop d ep [0, 1, 2]).2 = true <;>
      simp [hr, insertAlert_not_mem_retry]

theorem insertAlert_mem_create {cfg : NotifierConfig} {ep : Nat → Bool}
    {ok : Bool} {now : Int} {s : AlertStore} {mt : String} {th cv : ℚ}
    {a : Alert}
    (h : Event.insertAlert a ∈ (create_alert cfg ep ok now s mt th cv).2) :
    a = ⟨s.next_id, now, mt, th, cv, "active"⟩ := by
  cases ok with
  | false => simp [create_alert] at h
  | true =>
    simp [create_alert, AlertStore.insertRow] at h
    rcases h with h | h
    · exact h
    · exact absurd h (insertAlert_not_mem_send a cfg ep _)

theorem insertAlert_not_mem_store_historical (a : Alert) (ok : Bool)
    (now : Int) (hist : List HistoryRow) (m : MetricSample) :
    Event.insertAlert a ∉ (store_historical_metrics ok now hist m).2 := by
  cases ok <;> simp [store_historical_metrics]

/-- C10: every alert the monitoring loop's sampling path inserts has
current_value strictly greater than threshold, a threshold equal to the
configured threshold for its metric type, and status initialized to
active. -/
theorem created_alert_invariant (env : CycleEnv) (s : SystemState) (a : Alert)
    (ha : Event.insertAlert a ∈ (runCycle env s).2) :
    a.threshold < a.current_value ∧ a.status = "active" ∧
    a.threshold = thresholdFor env.thresholds a.metric_type ∧
    (a.metric_type = "CPU" ∨ a.metric_type = "Memory" ∨ a.metric_type = "Disk") := by
  cases hs : env.sample with
  | error e =>
    simp [runCycle, cycleBody, hs] at ha
  | ok m =>
    simp only [runCycle, cycleBody, hs] at ha
    rw [List.mem_append] at ha
    rcases ha with ha | ha
    swap
    · simp at ha
    rw [List.mem_append] at ha
    rcases ha with ha | ha
    swap
    · exact absurd ha (insertAlert_not_mem_store_historical a _ _ _ _)
    rw [List.mem_append] at ha
    rcases ha with ha | ha
    swap
    · -- Disk check
      by_cases hc : env.thresholds.disk_threshold < m.disk_percent
      · rw [if_pos hc] at ha
        have := insertAlert_mem_create ha
        subst this
        refine ⟨hc, rfl, ?_, Or.inr (Or.inr rfl)⟩
        simp [thresholdFor]
      · rw [if_neg hc] at ha
        simp at ha
    rw [List.mem_append] at ha
    rcases ha with ha | ha
    · -- CPU check
      by_cases hc : env.thresholds.cpu_threshold < m.cpu_percent
      · rw [if_pos hc] at ha
        have := insertAlert_mem_create ha
        subst this
        refine ⟨hc, rfl, ?_, Or.inl rfl⟩
        simp [thresholdFor]
      · rw [if_neg hc] at ha
        simp at ha
    · -- Memory check
      by_cases hc : env.thresholds.memory_threshold < m.memory_percent
      · rw [if_pos hc] at ha
        have := insertAlert_mem_create ha
        subst this
        refine ⟨hc, rfl, ?_, Or.inr (Or.inl rfl)⟩
        simp [thresholdFor]
      · rw [if_neg hc] at ha
        simp at ha

/-- Witness for `created_alert_invariant`: the CPU alert of scenario A. -/
theorem created_alert_invariant_witness :
    (80 : ℚ) < 90 ∧ "active" = "active" ∧
    (80 : ℚ) = thresholdFor scenarioA_env.thresholds "CPU" ∧
    (("CPU" : String) = "CPU" ∨ ("CPU" : String) = "Memory" ∨
      ("CPU" : String) = "Disk") :=
  created_alert_invariant scenarioA_env emptyState
    ⟨1, 100, "CPU", 80, 90, "active"⟩ (by decide)

/-- C1 counterexample: with a webhook configured and a store holding one
already-resolved alert (id 1), the resolve operation on id 1 returns the
success message — not false — and triggers one more notifier invocation with
a status=resolved payload containing an actual HTTP delivery attempt; and
the resolve operation on the nonexistent id 99 raises an HTTP error instead
of returning false.  This refutes the claimed idempotent no-op. -/
theorem resolve_idempotence_counterexample :
    (resolve_alert ⟨some "hook"⟩ (fun _ => true) resolvedStore 1).2.2
        = HandlerResult.ok 1 ∧
    ((resolve_alert ⟨some "hook"⟩ (fun _ => true) resolvedStore 1).2.1).countP
        Event.isResolvedNotify = 1 ∧
    ((resolve_alert ⟨some "hook"⟩ (fun _ => true) resolvedStore 1).2.1).countP
        Event.isHttpPost = 1 ∧
    (resolve_alert ⟨some "hook"⟩ (fun _ => true) resolvedStore 99).2.2
        = HandlerResult.httpError 500 := by
  decide

theorem countP_resolvedNotify_retry (d : AlertData) (ep : Nat → Bool)
    (ks : List Nat) :
    (slackRetryLoop d ep ks).1.countP Event.isResolvedNotify = 0 := by
  induction ks with
  | nil => simp [slackRetryLoop]
  | cons k rest ih =>
    simp only [slackRetryLoop]
    split
    · simp [Event.isResolvedNotify]
    · split
      · simp [Event.isResolvedNotify]
      · simp [Event.isResolvedNotify, List.countP_cons, ih]

theorem countP_resolvedNotify_send (cfg : NotifierConfig) (ep : Nat → Bool)
    (d : AlertData) (hd : d.status = "resolved") :
    (send_slack_alert cfg ep d).countP Event.isResolvedNotify = 1 := by
  have hhead : Event.isResolvedNotify (Event.notifyCall d) = true := by
    simp [Event.isResolvedNotify, hd]
  unfold send_slack_alert
  cases cfg.slack_webhook_url with
  | none => simp [List.countP_cons, hhead, Event.isResolvedNotify, hd]
  | some u =>
    by_cases hr : (slackRetryLoop d ep [0, 1, 2]).2 = true <;>
      simp [hr, List.countP_cons, List.countP_append, hhead,
        countP_resolvedNotify_retry, Event.isResolvedNotify, hd]

/-- C1 amended: resolving a nonexistent alert id raises an HTTP error (the
handler's 404 is re-raised as 500 by its blanket exception handler) rather
than returning false, and performs no notification; resolving an
already-resolved alert id is not an idempotent no-op: the update is
re-applied, the call reports success, and the notifier is invoked once more
with a status=resolved payload. -/
theorem resolve_alert_amended (cfg : NotifierConfig) (endpoint : Nat → Bool)
    (s : AlertStore) (alert_id : Nat) :
    ((∀ a ∈ s.alerts, a.id ≠ alert_id) →
        (resolve_alert cfg endpoint s alert_id).2.2
            = HandlerResult.httpError 500 ∧
        (resolve_alert cfg endpoint s alert_id).2.1 = []) ∧
    (∀ a, s.alerts.find? (fun x => x.id == alert_id) = some a →
        a.status = "resolved" →
        (resolve_alert cfg endpoint s alert_id).2.2 = HandlerResult.ok alert_id ∧
        (resolve_alert cfg endpoint s alert_id).2.1
            = send_slack_alert cfg endpoint
                ⟨a.id, a.metric_type, a.threshold, a.current_value, "resolved"⟩ ∧
        (resolve_alert cfg endpoint s alert_id).2.1.countP
            Event.isResolvedNotify = 1) := by
  constructor
  · intro hno
    have hfil : s.alerts.filter (fun a => a.id == alert_id) = [] := by
      rw [List.filter_eq_nil_iff]
      intro a ha
      simp [hno a ha]
    unfold resolve_alert
    rw [hfil]
    simp
  · intro a hfind hstatus
    have hpred0 := List.find?_some hfind
    have hpred : (a.id == alert_id) = true := hpred0
    have hmem : a ∈ s.alerts := List.mem_of_find?_eq_some hfind
    have hlen : (s.alerts.filter (fun x => x.id == alert_id)).length ≠ 0 := by
      intro h0
      rw [List.length_eq_zero] at h0
      have : a ∈ s.alerts.filter (fun x => x.id == alert_id) :=
        List.mem_filter.mpr ⟨hmem, hpred⟩
      simp [h0] at this
    have hid : a.id = alert_id := by simpa using hpred
    have hfind2 : (updateAlertsResolved s.alerts alert_id).find?
        (fun x => x.id == alert_id) = some { a with status := "resolved" } := by
      unfold updateAlertsResolved
      rw [List.find?_map]
      have hcomp : ((fun x : Alert => x.id == alert_id) ∘
          fun a => if a.id == alert_id then { a with status := "resolved" } else a)
            = fun x : Alert => x.id == alert_id := by
        funext x
        by_cases h : x.id = alert_id <;> simp [h]
      rw [hcomp, hfind]
      simp [hid]
    unfold resolve_alert
    rw [if_pos hlen, hfind2]
    refine ⟨rfl, rfl, ?_⟩
    exact countP_resolvedNotify_send cfg endpoint _ rfl

/-- Witness for `resolve_alert_amended`: the concrete single-alert store,
exercising both the nonexistent-id branch (id 99) and the already-resolved
branch (id 1). -/
theorem resolve_alert_amended_witness :
    ((resolve_alert ⟨some "hook"⟩ (fun _ => true) resolvedStore 99).2.2
        = HandlerResult.httpError 500 ∧
     (resolve_alert ⟨some "hook"⟩ (fun _ => true) resolvedStore 99).2.1 = []) ∧
    ((resolve_alert ⟨some "hook"⟩ (fun _ => true) resolvedStore 1).2.2
        = HandlerResult.ok 1 ∧
     (resolve_alert ⟨some "hook"⟩ (fun _ => true) resolvedStore 1).2.1
        = send_slack_alert ⟨some "hook"⟩ (fun _ => true)
            ⟨1, "CPU", 80, 90, "resolved"⟩ ∧
     (resolve_alert ⟨some "hook"⟩ (fun _ => true) resolvedStore 1).2.1.countP
        Event.isResolvedNotify = 1) :=
  ⟨(resolve_alert_amended ⟨some "hook"⟩ (fun _ => true) resolvedStore 99).1
      (by decide),
   (resolve_alert_amended ⟨some "hook"⟩ (fun _ => true) resolvedStore 1).2
      ⟨1, 0, "CPU", 80, 90, "resolved"⟩ (by decide) rfl⟩

end HealthMonitor
